import Mathlib

/-!
Shallow embedding of `targets/gce/instances.go` from Clivern/cloudprober:
the GCE instances cache (`instancesProvider`), the per-caller resolution
object (`instances`), and the constructor (`newInstances`), together with
models of the Go standard library `net` parsing functions that the source
calls (`net.ParseIP`, `net.ParseCIDR`).
-/

deriving instance DecidableEq for Except

namespace GceInstances

/-! ## Data model: compute API records (fields used by the source) -/

/-- Model of `compute.AccessConfig`: only the `NatIP` field is read. -/
structure AccessConfig where
  NatIP : String
deriving DecidableEq

/-- Model of `compute.AliasIpRange`: only the `IpCidrRange` field is read. -/
structure AliasIpRange where
  IpCidrRange : String
deriving DecidableEq

/-- Model of `compute.NetworkInterface`: the fields read by `instances.Resolve`. -/
structure NetworkInterface where
  NetworkIP : String
  AccessConfigs : List AccessConfig
  AliasIpRanges : List AliasIpRange
deriving DecidableEq

/-- Model of `compute.Instance`: the fields read by the source. -/
structure ComputeInstance where
  Name : String
  NetworkInterfaces : List NetworkInterface
deriving DecidableEq

/-! ## Configuration (the `Instances` protobuf message, as used by the source) -/

/-- Modelled from the spec: the addressing mode enum
`Instances_NetworkInterface_IPType` (PRIVATE / PUBLIC / ALIAS); its proto
definition is not under `src/`, only its use in `instances.Resolve`. -/
inductive IPType
  | PRIVATE
  | PUBLIC
  | ALIAS
deriving DecidableEq

/-- Modelled from the spec: the `Instances_NetworkInterface` config message
(an optional interface `index`, an int32 in Go, and an addressing `ipType`);
its proto definition is not under `src/`, only the `GetIndex`/`GetIpType`
calls in `instances.Resolve`. -/
structure Instances_NetworkInterface where
  index : Int
  ipType : IPType
deriving DecidableEq

/-- Modelled from the spec: the `Instances` config message as read by the
source through `GetNetworkInterface` (nil-able) and `GetUseDnsToResolve`. -/
structure Instances where
  networkInterface : Option Instances_NetworkInterface
  useDnsToResolve : Bool
deriving DecidableEq

/-! ## Go standard library `net` parsing, modelled

The source calls `net.ParseIP` and `net.ParseCIDR`; these are Go standard
library functions (not code of this repository), modelled here after the
Go `net` package of the source's era.  An IP is a byte slice (`List Nat`,
each entry < 256); a parse failure is `none` (Go's nil `IP`). -/

/-- Go's `v4InV6Prefix`: the 12-byte mapping that embeds an IPv4 address in
the 16-byte form returned by `net.IPv4` (and hence by `net.ParseIP`). -/
def v4Pfx : List Nat := [0, 0, 0, 0, 0, 0, 0, 0, 0, 0, 0xff, 0xff]

/-- Go's `net.IPv4 a b c d`: the 16-byte representation of an IPv4 address. -/
def ipv4 (a b c d : Nat) : List Nat := v4Pfx ++ [a, b, c, d]

/-- Upper bound used by Go's `dtoi` (`big = 0xFFFFFF`). -/
def dtoiBig : Nat := 0xFFFFFF

/-- Loop of Go's `dtoi`: consume decimal digits, accumulating the value,
failing once the accumulator reaches `dtoiBig`.  Returns
(value, number of characters consumed, ok). -/
def dtoiLoop : List Char → Nat → Nat → Nat × Nat × Bool
  | [], n, i => (n, i, true)
  | c :: rest, n, i =>
    if '0' ≤ c ∧ c ≤ '9' then
      let n' := n * 10 + (c.toNat - '0'.toNat)
      if dtoiBig ≤ n' then (dtoiBig, i, false)
      else dtoiLoop rest n' (i + 1)
    else (n, i, true)

/-- Model of Go's `dtoi`: parse a decimal prefix of the string; zero digits
is a failure. -/
def dtoi (s : List Char) : Nat × Nat × Bool :=
  let r := dtoiLoop s 0 0
  if r.2.1 = 0 ∧ r.2.2 = true then (0, 0, false) else r

/-- One step of Go's `parseIPv4` loop: fields after the first must be
preceded by a dot; each field is a decimal number ≤ 0xFF. -/
def parseIPv4Fields : Nat → List Char → List Nat → Option (List Nat)
  | 0, s, acc => if s.isEmpty then some acc else none
  | k + 1, s, acc =>
    if s.isEmpty then none
    else
      let afterDot : Option (List Char) :=
        if acc.isEmpty then some s
        else
          match s with
          | '.' :: rest => some rest
          | _ => none
      match afterDot with
      | none => none
      | some s2 =>
        let r := dtoi s2
        if r.2.2 = true ∧ r.1 ≤ 0xFF then
          parseIPv4Fields k (s2.drop r.2.1) (acc ++ [r.1])
        else none

/-- Model of Go's `parseIPv4`: four dot-separated decimal fields, nothing
left over; on success the 16-byte `net.IPv4` form is returned. -/
def parseIPv4 (s : List Char) : Option (List Nat) :=
  match parseIPv4Fields 4 s [] with
  | some p => some (v4Pfx ++ p)
  | none => none

/-- Scan of Go's `net.ParseIP`: find the first '.' or ':' to choose the
IPv4 or IPv6 branch (`some true` = '.', `some false` = ':'). -/
def parseIPKind : List Char → Option Bool
  | [] => none
  | c :: rest =>
    if c = '.' then some true
    else if c = ':' then some false
    else parseIPKind rest

/-- Model of Go's `net.ParseIP`.  The IPv6 branch (first special character
is ':') is modelled as unparseable (`none`); no claim in this development
depends on IPv6 literals, and every universally quantified statement below
is structural in this function. -/
def parseIP (s : String) : Option (List Nat) :=
  match parseIPKind s.toList with
  | some true => parseIPv4 s.toList
  | some false => none
  | none => none

/-- Split a character list at the first '/' (Go's `byteIndex(s, '/')`
followed by the `s[:i]`, `s[i+1:]` slicing in `net.ParseCIDR`). -/
def splitAtSlash : List Char → Option (List Char × List Char)
  | [] => none
  | c :: rest =>
    if c = '/' then some ([], rest)
    else
      match splitAtSlash rest with
      | none => none
      | some p => some (c :: p.1, p.2)

/-- Model of Go's `net.CIDRMask` restricted to the byte-list it builds:
`l` remaining bytes, `n` remaining one-bits. -/
def cidrMaskBytes : Nat → Nat → List Nat
  | 0, _ => []
  | l + 1, n =>
    if 8 ≤ n then 0xff :: cidrMaskBytes l (n - 8)
    else (0xff - (0xff >>> n)) :: cidrMaskBytes l 0

/-- Model of Go's `IP.Mask`: a 16-byte v4-mapped address masked by a 4-byte
mask uses its last four bytes; mismatched lengths give Go's nil (here `[]`). -/
def ipMask (ip mask : List Nat) : List Nat :=
  let ip' := if mask.length = 4 ∧ ip.length = 16 then ip.drop 12 else ip
  if ip'.length = mask.length then List.zipWith (fun b m => b.land m) ip' mask
  else []

/-- Model of Go's `IP.Equal`: equal byte slices, or a 4-byte address equal
to the tail of a v4-mapped 16-byte address. -/
def goIPEqual (ip x : List Nat) : Bool :=
  if ip.length = x.length then ip == x
  else if ip.length = 4 ∧ x.length = 16 then
    (x.take 12 == v4Pfx) && (ip == x.drop 12)
  else if ip.length = 16 ∧ x.length = 4 then
    (ip.take 12 == v4Pfx) && (ip.drop 12 == x)
  else false

/-- Model of Go's `net.ParseCIDR` (address and mask of the parsed network;
the source only uses the address part and the error).  The IPv6 address
branch is modelled as unparseable, matching `parseIP`.  On error Go returns
`&ParseError{"CIDR address", s}`, whose message is modelled verbatim. -/
def parseCIDR (s : String) : Except String (List Nat × List Nat) :=
  match splitAtSlash s.toList with
  | none => Except.error ("invalid CIDR address: " ++ s)
  | some p =>
    match parseIPv4 p.1 with
    | none => Except.error ("invalid CIDR address: " ++ s)
    | some ip =>
      let r := dtoi p.2
      if r.2.2 = true ∧ r.2.1 = p.2.length ∧ r.1 ≤ 32 then
        Except.ok (ip, cidrMaskBytes 4 r.1)
      else Except.error ("invalid CIDR address: " ++ s)

/-! ## The cache store (`instancesProvider`) -/

/-- The mutable fields of `instancesProvider` guarded by its mutex: the
configured self-identity (`thisInstance`), the ordered `names` list, and
the `cache` map.  The Go map is modelled as an association list where
insertion replaces an existing binding. -/
structure instancesProvider where
  thisInstance : String
  names : List String
  cache : List (String × ComputeInstance)
deriving DecidableEq

/-- Lookup in the modelled Go map (`ip.cache[name]`). -/
def mapLookup : List (String × ComputeInstance) → String → Option ComputeInstance
  | [], _ => none
  | kv :: rest, n => if n = kv.1 then some kv.2 else mapLookup rest n

/-- Insertion in the modelled Go map (`ip.cache[ins.Name] = ins`):
replaces an existing binding, otherwise appends. -/
def mapInsert : List (String × ComputeInstance) → String → ComputeInstance →
    List (String × ComputeInstance)
  | [], k, v => [(k, v)]
  | kv :: rest, k, v =>
    if kv.1 = k then (k, v) :: rest else kv :: mapInsert rest k v

/-- `instancesProvider.get`: cache lookup by name. -/
def instancesProvider.get (ip : instancesProvider) (name : String) :
    Option ComputeInstance :=
  mapLookup ip.cache name

/-- `instancesProvider.list`: the current names list (Go returns a fresh
copy, which is equal as a value). -/
def instancesProvider.list (ip : instancesProvider) : List String :=
  ip.names

/-- Body of the loop in `instancesProvider.expand`: skip a record named
like this instance, otherwise insert it into the cache and append its name
to the result list being built. -/
def expandStep (thisInstance : String)
    (acc : List (String × ComputeInstance) × List String)
    (ins : ComputeInstance) : List (String × ComputeInstance) × List String :=
  if ins.Name = thisInstance then acc
  else (mapInsert acc.1 ins.Name ins, acc.2 ++ [ins.Name])

/-- `instancesProvider.expand`: one refresh cycle.  The inventory fetch
(`listInstances`, network I/O) is passed in as its result.  On error the
state is returned untouched (the source logs and returns); on success the
records are folded into the cache and a freshly built names list replaces
the old one.  Note the cache itself is not cleared first. -/
def expand (ip : instancesProvider)
    (fetch : Except String (List ComputeInstance)) : instancesProvider :=
  match fetch with
  | Except.error _ => ip
  | Except.ok computeInstances =>
    let r := computeInstances.foldl (expandStep ip.thisInstance) (ip.cache, [])
    { ip with cache := r.1, names := r.2 }

/-- The provider state installed by `initGlobalInstancesProvider`: empty
cache and names, a fixed self-identity string. -/
def initialProvider (thisInstance : String) : instancesProvider :=
  ⟨thisInstance, [], []⟩

/-- States of the cache store reachable from initialization by any
sequence of refresh cycles (each with an arbitrary fetch result). -/
inductive Reachable : instancesProvider → Prop
  | init (t : String) : Reachable (initialProvider t)
  | step (s : instancesProvider) (f : Except String (List ComputeInstance)) :
      Reachable s → Reachable (expand s f)

/-! ## Resolution (`instances.Resolve`) and construction (`newInstances`) -/

/-- The errors produced by `instances.Resolve` (each `fmt.Errorf` call),
plus `cidrError` carrying the message of a propagated `net.ParseCIDR`
error. -/
inductive ResolveError
  | notInInventory (name : String)
  | noInterfaceAtIndex (name : String) (idx : Int)
  | noAccessConfig (name : String)
  | noAliasIpRange (name : String)
  | cidrError (msg : String)
deriving DecidableEq

/-- Outcome of `instances.Resolve`, whose Go type is `(net.IP, error)`:
`ok ip` is a nil error (with `ok none` modelling Go's `(nil, nil)`),
`err e` is a non-nil error with nil IP, `indexOutOfRange` is the runtime
panic raised by indexing the interface slice with a negative index, and
`nilResolverDeref` the panic of calling through a nil resolver pointer. -/
inductive ResolveResult
  | ok (ip : Option (List Nat))
  | err (e : ResolveError)
  | indexOutOfRange (idx : Int)
  | nilResolverDeref
deriving DecidableEq

/-- The external DNS resolver (`dnsRes.Resolver.Resolve`), out of scope of
this repository: an abstract function from name and IP version to a
resolution outcome. -/
def Resolver : Type := String → Int → ResolveResult

/-- The `instances` struct: the per-caller config `pb` and the optional
shared resolver `r`. -/
structure instances where
  pb : Instances
  r : Option Resolver

/-- Interface index chosen by `instances.Resolve`: the configured index
when a network interface is configured, otherwise 0. -/
def niIndexOf (pb : Instances) : Int :=
  match pb.networkInterface with
  | some ni => ni.index
  | none => 0

/-- Addressing mode chosen by `instances.Resolve`: the configured type
when a network interface is configured, otherwise PRIVATE. -/
def ipTypeOf (pb : Instances) : IPType :=
  match pb.networkInterface with
  | some ni => ni.ipType
  | none => IPType.PRIVATE

/-- Go slice indexing `ins.NetworkInterfaces[niIndex]` as reached by the
source after its `len(...) <= niIndex` guard: in-range indices return the
element; a negative index is out of bounds (runtime panic in Go). -/
def netIdx (l : List NetworkInterface) (i : Int) : Option NetworkInterface :=
  if i < 0 then none else l[i.toNat]?

/-- `instances.Resolve`, with the shared provider state passed explicitly
(the source reads the `globalInstancesProvider` singleton). -/
def resolve (i : instances) (st : instancesProvider)
    (name : String) (ipVer : Int) : ResolveResult :=
  if i.pb.useDnsToResolve then
    match i.r with
    | some res => res name ipVer
    | none => ResolveResult.nilResolverDeref
  else
    match mapLookup st.cache name with
    | none => ResolveResult.err (ResolveError.notInInventory name)
    | some ins =>
      let niIndex := niIndexOf i.pb
      if (ins.NetworkInterfaces.length : Int) ≤ niIndex then
        ResolveResult.err (ResolveError.noInterfaceAtIndex name niIndex)
      else
        match netIdx ins.NetworkInterfaces niIndex with
        | none => ResolveResult.indexOutOfRange niIndex
        | some intf =>
          match ipTypeOf i.pb with
          | IPType.PRIVATE => ResolveResult.ok (parseIP intf.NetworkIP)
          | IPType.PUBLIC =>
            match intf.AccessConfigs with
            | [] => ResolveResult.err (ResolveError.noAccessConfig name)
            | ac :: _ => ResolveResult.ok (parseIP ac.NatIP)
          | IPType.ALIAS =>
            match intf.AliasIpRanges with
            | [] => ResolveResult.err (ResolveError.noAliasIpRange name)
            | ar :: _ =>
              match parseIP ar.IpCidrRange with
              | some ip => ResolveResult.ok (some ip)
              | none =>
                match parseCIDR ar.IpCidrRange with
                | Except.ok p => ResolveResult.ok (some p.1)
                | Except.error e => ResolveResult.err (ResolveError.cidrError e)

/-- `newInstances`: validates the config, then runs singleton
initialization (whose outcome, involving metadata calls and a background
goroutine, is abstracted as the `initResult` parameter), and on success
returns the `instances` object. -/
def newInstances (ipb : Instances) (globalResolver : Option Resolver)
    (initResult : Except String Unit) : Except String instances :=
  if ipb.networkInterface.isSome ∧ ipb.useDnsToResolve = true then
    Except.error "network_intf and use_dns_to_resolve are mutually exclusive"
  else if ipb.useDnsToResolve = true ∧ globalResolver.isNone then
    Except.error "use_dns_to_resolve configured, but globalResolver is nil"
  else
    match initResult with
    | Except.error e => Except.error e
    | Except.ok _ => Except.ok ⟨ipb, globalResolver⟩

/-! ## Concrete sample data used by witnesses and counterexamples -/

/-- A config with no explicit network interface and no DNS delegation. -/
def pbDefault : Instances := ⟨none, false⟩

/-- A config selecting interface 0 in PUBLIC mode. -/
def pbPublic : Instances := ⟨some ⟨0, IPType.PUBLIC⟩, false⟩

/-- A config selecting interface 0 in ALIAS mode. -/
def pbAlias : Instances := ⟨some ⟨0, IPType.ALIAS⟩, false⟩

/-- A config selecting the (out-of-bounds) interface index -1. -/
def pbNeg : Instances := ⟨some ⟨-1, IPType.PRIVATE⟩, false⟩

/-- An interface with a private IP, one access config, one alias range. -/
def intfPriv : NetworkInterface := ⟨"10.0.0.5", [⟨"34.1.2.3"⟩], [⟨"10.1.2.0/24"⟩]⟩

/-- A fully populated instance record. -/
def vmFull : ComputeInstance := ⟨"vm-full", [intfPriv]⟩

/-- A provider state caching `vmFull`. -/
def stFull : instancesProvider := ⟨"", ["vm-full"], [("vm-full", vmFull)]⟩

/-- An instance whose first alias range is a CIDR in network form. -/
def vmAliasCidr : ComputeInstance := ⟨"vm-ac", [⟨"", [], [⟨"10.1.2.0/24"⟩]⟩]⟩

/-- A provider state caching `vmAliasCidr`. -/
def stAliasCidr : instancesProvider := ⟨"", ["vm-ac"], [("vm-ac", vmAliasCidr)]⟩

/-- An instance whose first alias range is a bare IP address. -/
def vmAliasBare : ComputeInstance := ⟨"vm-ab", [⟨"", [], [⟨"10.1.2.9"⟩]⟩]⟩

/-- A provider state caching `vmAliasBare`. -/
def stAliasBare : instancesProvider := ⟨"", ["vm-ab"], [("vm-ab", vmAliasBare)]⟩

/-- An instance whose first alias range is a CIDR whose address part is not
the network address (host bits set). -/
def vmAliasHost : ComputeInstance := ⟨"vm-ah", [⟨"", [], [⟨"10.1.2.9/24"⟩]⟩]⟩

/-- A provider state caching `vmAliasHost`. -/
def stAliasHost : instancesProvider := ⟨"", ["vm-ah"], [("vm-ah", vmAliasHost)]⟩

/-- An instance whose private address field is not an IP literal. -/
def vmBadIP : ComputeInstance := ⟨"vm-bad", [⟨"not-an-ip", [], []⟩]⟩

/-- A provider state caching `vmBadIP`. -/
def stBadIP : instancesProvider := ⟨"", ["vm-bad"], [("vm-bad", vmBadIP)]⟩

/-- State after one refresh that returned instances `vm-a` and `vm-b`. -/
def s1c : instancesProvider :=
  expand (initialProvider "") (Except.ok [⟨"vm-a", []⟩, ⟨"vm-b", []⟩])

/-- State after a second refresh in which `vm-b` has disappeared. -/
def s2c : instancesProvider := expand s1c (Except.ok [⟨"vm-a", []⟩])

/-- State after one refresh whose inventory included the probing machine
itself (self-identity `probe-1`). -/
def probeState : instancesProvider :=
  expand (initialProvider "probe-1") (Except.ok [⟨"probe-1", []⟩, ⟨"vm-a", []⟩])

/-! ## Helper lemmas -/

/-- Lookup after insertion in the modelled Go map. -/
theorem mapLookup_mapInsert (m : List (String × ComputeInstance)) (k n : String)
    (v : ComputeInstance) :
    mapLookup (mapInsert m k v) n = if n = k then some v else mapLookup m n := by
  induction m with
  | nil => simp [mapInsert, mapLookup]
  | cons kv rest ih =>
    by_cases hk : kv.1 = k <;> by_cases hn : n = kv.1 <;>
      simp_all [mapInsert, mapLookup]

/-- A successful interface selection implies the source's
`len(...) <= niIndex` guard was false. -/
theorem netIdx_guard (l : List NetworkInterface) (i : Int) (x : NetworkInterface)
    (h : netIdx l i = some x) : ¬ ((l.length : Int) ≤ i) := by
  unfold netIdx at h
  by_cases hi : i < 0
  · simp [hi] at h
  · simp only [hi, if_false] at h
    have hlt : i.toNat < l.length := by
      by_contra hge
      push_neg at hge
      rw [List.getElem?_eq_none hge] at h
      exact absurd h (by simp)
    omega

/-- Invariant of the `expand` loop: every name appended to the result list
has been inserted into the cache being built. -/
theorem expandStep_foldl_sound (t : String) (l : List ComputeInstance)
    (acc : List (String × ComputeInstance) × List String)
    (h : ∀ n ∈ acc.2, (mapLookup acc.1 n).isSome = true) :
    ∀ n ∈ (l.foldl (expandStep t) acc).2,
      (mapLookup (l.foldl (expandStep t) acc).1 n).isSome = true := by
  induction l generalizing acc with
  | nil => simpa using h
  | cons ins rest ih =>
    rw [List.foldl_cons]
    apply ih
    intro n hn
    unfold expandStep at hn ⊢
    by_cases hname : ins.Name = t
    · rw [if_pos hname] at hn ⊢
      exact h n hn
    · rw [if_neg hname] at hn ⊢
      simp only [List.mem_append, List.mem_singleton] at hn
      rw [mapLookup_mapInsert]
      rcases hn with hn | hn
      · by_cases he : n = ins.Name
        · simp [he]
        · simpa [he] using h n hn
      · simp [hn]

/-- Invariant of the `expand` loop: the self-identity name is never
appended to the result list. -/
theorem expandStep_foldl_not_self (t : String) (l : List ComputeInstance)
    (acc : List (String × ComputeInstance) × List String)
    (h : t ∉ acc.2) : t ∉ (l.foldl (expandStep t) acc).2 := by
  induction l generalizing acc with
  | nil => simpa using h
  | cons ins rest ih =>
    rw [List.foldl_cons]
    apply ih
    unfold expandStep
    by_cases hname : ins.Name = t
    · rw [if_pos hname]; exact h
    · rw [if_neg hname]
      simp only [List.mem_append, List.mem_singleton]
      push_neg
      exact ⟨h, fun he => hname he.symm⟩

/-! ## Claim theorems -/

/-- C1 (amended): in every reachable cache state, every name returned by
`List()` maps to a record in the cache (the converse direction of the
original claim fails: the cache is never purged, see the counterexample). -/
theorem list_names_subset_cache (s : instancesProvider) (hs : Reachable s) :
    ∀ n ∈ instancesProvider.list s, (instancesProvider.get s n).isSome = true := by
  induction hs with
  | init t =>
    intro n hn
    simp [instancesProvider.list, initialProvider] at hn
  | step s' f hr ih =>
    intro n hn
    cases f with
    | error e => exact ih n hn
    | ok l =>
      exact expandStep_foldl_sound s'.thisInstance l (s'.cache, [])
        (by intro x hx; simp at hx) n hn

/-- C1 witness: in the state after one refresh, the listed name `vm-a` is
mapped in the cache. -/
theorem list_names_subset_cache_witness :
    (instancesProvider.get s1c "vm-a").isSome = true :=
  list_names_subset_cache s1c (Reachable.step _ _ (Reachable.init "")) "vm-a"
    (by decide)

/-- C1 counterexample: after a refresh in which `vm-b` disappeared from
the inventory, `vm-b` is still mapped by `get` but no longer listed, so
the listed names are not exactly the mapped names. -/
theorem cache_stale_key_counterexample :
    (instancesProvider.get s2c "vm-b").isSome = true ∧
    "vm-b" ∉ instancesProvider.list s2c ∧
    instancesProvider.list s2c = ["vm-a"] := by
  refine ⟨by decide, by decide, by decide⟩

/-- C2 (amended): in ALIAS mode with at least one alias range, `Resolve`
takes the first range's string, first tries to parse it as a bare IP,
returning that IP on success; if that fails it parses it as a CIDR and
returns the IP address portion of the CIDR string as written (NOT the
masked network address — see the counterexample); if the CIDR parse also
fails, the CIDR parser's error is returned verbatim. -/
theorem alias_resolution_spec (i : instances) (st : instancesProvider)
    (name : String) (ipVer : Int) (ins : ComputeInstance)
    (intf : NetworkInterface) (ar : AliasIpRange) (rest : List AliasIpRange)
    (hdns : i.pb.useDnsToResolve = false)
    (htyp : ipTypeOf i.pb = IPType.ALIAS)
    (hlook : mapLookup st.cache name = some ins)
    (hintf : netIdx ins.NetworkInterfaces (niIndexOf i.pb) = some intf)
    (har : intf.AliasIpRanges = ar :: rest) :
    (∀ ip, parseIP ar.IpCidrRange = some ip →
        resolve i st name ipVer = ResolveResult.ok (some ip)) ∧
    (parseIP ar.IpCidrRange = none →
      (∀ p, parseCIDR ar.IpCidrRange = Except.ok p →
          resolve i st name ipVer = ResolveResult.ok (some p.1)) ∧
      (∀ e, parseCIDR ar.IpCidrRange = Except.error e →
          resolve i st name ipVer = ResolveResult.err (ResolveError.cidrError e))) := by
  have hguard := netIdx_guard _ _ _ hintf
  refine ⟨fun ip hip => ?_, fun hnone => ⟨fun p hp => ?_, fun e he => ?_⟩⟩ <;>
    simp_all [resolve, hdns, hlook, hguard, hintf, htyp, har]

/-- C2 witness: a network-form CIDR alias range resolves to its address
(`10.1.2.0`), and a bare-address alias range resolves directly
(`10.1.2.9`). -/
theorem alias_resolution_spec_witness :
    resolve ⟨pbAlias, none⟩ stAliasCidr "vm-ac" 0 =
      ResolveResult.ok (some (ipv4 10 1 2 0)) ∧
    resolve ⟨pbAlias, none⟩ stAliasBare "vm-ab" 0 =
      ResolveResult.ok (some (ipv4 10 1 2 9)) := by
  constructor
  · have h := alias_resolution_spec ⟨pbAlias, none⟩ stAliasCidr "vm-ac" 0
      vmAliasCidr ⟨"", [], [⟨"10.1.2.0/24"⟩]⟩ ⟨"10.1.2.0/24"⟩ []
      (by decide) (by decide) (by decide) (by decide) (by decide)
    exact (h.2 (by decide)).1 (ipv4 10 1 2 0, [255, 255, 255, 0]) (by decide)
  · have h := alias_resolution_spec ⟨pbAlias, none⟩ stAliasBare "vm-ab" 0
      vmAliasBare ⟨"", [], [⟨"10.1.2.9"⟩]⟩ ⟨"10.1.2.9"⟩ []
      (by decide) (by decide) (by decide) (by decide) (by decide)
    exact h.1 (ipv4 10 1 2 9) (by decide)

/-- C2 counterexample: for the alias range `10.1.2.9/24`, whose bare-IP
parse fails, the code returns the address as written (`10.1.2.9`) — the
first component of `net.ParseCIDR`'s result — and not the network address
portion (`10.1.2.0`, the masked address), which differs from it. -/
theorem alias_network_address_counterexample :
    resolve ⟨pbAlias, none⟩ stAliasHost "vm-ah" 0 =
      ResolveResult.ok (some (ipv4 10 1 2 9)) ∧
    parseCIDR "10.1.2.9/24" = Except.ok (ipv4 10 1 2 9, [255, 255, 255, 0]) ∧
    ipMask (ipv4 10 1 2 9) [255, 255, 255, 0] = [10, 1, 2, 0] ∧
    goIPEqual (ipv4 10 1 2 9) [10, 1, 2, 0] = false := by
  refine ⟨by decide, by decide, by decide, by decide⟩

/-- C3: for a name absent from the cache and a non-DNS configuration (any
interface index and addressing mode), `Resolve` returns the
not-in-inventory error and no IP. -/
theorem resolve_absent_not_found (i : instances) (st : instancesProvider)
    (name : String) (ipVer : Int)
    (hdns : i.pb.useDnsToResolve = false)
    (hlook : mapLookup st.cache name = none) :
    resolve i st name ipVer = ResolveResult.err (ResolveError.notInInventory name) := by
  simp [resolve, hdns, hlook]

/-- C3 witness: resolving a name against an empty cache fails with the
not-in-inventory error. -/
theorem resolve_absent_not_found_witness :
    resolve ⟨pbDefault, none⟩ ⟨"", [], []⟩ "ghost" 0 =
      ResolveResult.err (ResolveError.notInInventory "ghost") :=
  resolve_absent_not_found ⟨pbDefault, none⟩ ⟨"", [], []⟩ "ghost" 0 rfl rfl

/-- C4: in PUBLIC mode, a selected interface with zero access configs
yields the no-access-config error, and with at least one access config the
result is the parse of the first access config's NAT address, with no
error. -/
theorem public_mode_resolution (i : instances) (st : instancesProvider)
    (name : String) (ipVer : Int) (ins : ComputeInstance)
    (intf : NetworkInterface)
    (hdns : i.pb.useDnsToResolve = false)
    (htyp : ipTypeOf i.pb = IPType.PUBLIC)
    (hlook : mapLookup st.cache name = some ins)
    (hintf : netIdx ins.NetworkInterfaces (niIndexOf i.pb) = some intf) :
    (intf.AccessConfigs = [] →
        resolve i st name ipVer = ResolveResult.err (ResolveError.noAccessConfig name)) ∧
    (∀ ac rest, intf.AccessConfigs = ac :: rest →
        resolve i st name ipVer = ResolveResult.ok (parseIP ac.NatIP)) := by
  have hguard := netIdx_guard _ _ _ hintf
  refine ⟨fun hac => ?_, fun ac rest hac => ?_⟩ <;>
    simp_all [resolve, hdns, hlook, hguard, hintf, htyp]

/-- C4 witness: natIP `34.1.2.3` resolves to `34.1.2.3` in PUBLIC mode. -/
theorem public_mode_resolution_witness :
    resolve ⟨pbPublic, none⟩ stFull "vm-full" 0 =
      ResolveResult.ok (some (ipv4 34 1 2 3)) := by
  have h := (public_mode_resolution ⟨pbPublic, none⟩ stFull "vm-full" 0
    vmFull intfPriv (by decide) (by decide) (by decide) (by decide)).2
    ⟨"34.1.2.3"⟩ [] (by decide)
  rw [h]
  decide

/-- C5: with singleton initialization succeeding, `newInstances` fails
exactly when DNS-based resolution and an explicit network interface are
configured together or DNS-based resolution is configured without a
resolver. -/
theorem new_instances_error_iff (ipb : Instances) (gr : Option Resolver) :
    (∃ e, newInstances ipb gr (Except.ok ()) = Except.error e) ↔
      (ipb.networkInterface.isSome = true ∧ ipb.useDnsToResolve = true) ∨
      (ipb.useDnsToResolve = true ∧ gr.isNone = true) := by
  unfold newInstances
  split_ifs with h1 h2
  · exact iff_of_true ⟨_, rfl⟩ (Or.inl h1)
  · exact iff_of_true ⟨_, rfl⟩ (Or.inr h2)
  · refine iff_of_false ?_ (by tauto)
    rintro ⟨e, he⟩
    exact absurd he (by simp)

/-- C6: a refresh cycle whose inventory fetch fails leaves the provider
state — and hence `List()`, `get` and every `Resolve` call — unchanged. -/
theorem expand_error_noop (s : instancesProvider) (e : String) :
    expand s (Except.error e) = s ∧
    instancesProvider.list (expand s (Except.error e)) = instancesProvider.list s ∧
    instancesProvider.get (expand s (Except.error e)) = instancesProvider.get s ∧
    ∀ i name ipVer, resolve i (expand s (Except.error e)) name ipVer =
      resolve i s name ipVer :=
  ⟨rfl, rfl, rfl, fun _ _ _ => rfl⟩

/-- C7: in every reachable cache state, the configured self-identity name
is absent from the `List()` output. -/
theorem self_never_listed (s : instancesProvider) (hs : Reachable s) :
    s.thisInstance ∉ instancesProvider.list s := by
  induction hs with
  | init t => simp [instancesProvider.list, initialProvider]
  | step s' f hr ih =>
    cases f with
    | error e => exact ih
    | ok l =>
      exact expandStep_foldl_not_self s'.thisInstance l (s'.cache, []) (by simp)

/-- C7 witness: after a refresh whose inventory contained the machine's
own name `probe-1`, that name is not listed. -/
theorem self_never_listed_witness :
    "probe-1" ∉ instancesProvider.list probeState :=
  self_never_listed probeState (Reachable.step _ _ (Reachable.init "probe-1"))

/-- C8: with no explicit network interface configured, `Resolve` uses
index 0 and PRIVATE mode; a record with no interface at index 0 fails with
the no-interface error, and otherwise the result is the parse of the
interface's private address, with no error. -/
theorem default_private_resolution (i : instances) (st : instancesProvider)
    (name : String) (ipVer : Int) (ins : ComputeInstance)
    (hdns : i.pb.useDnsToResolve = false)
    (hnone : i.pb.networkInterface = none)
    (hlook : mapLookup st.cache name = some ins) :
    niIndexOf i.pb = 0 ∧ ipTypeOf i.pb = IPType.PRIVATE ∧
    (ins.NetworkInterfaces = [] →
        resolve i st name ipVer =
          ResolveResult.err (ResolveError.noInterfaceAtIndex name 0)) ∧
    (∀ intf rest, ins.NetworkInterfaces = intf :: rest →
        resolve i st name ipVer = ResolveResult.ok (parseIP intf.NetworkIP)) := by
  refine ⟨by simp [niIndexOf, hnone], by simp [ipTypeOf, hnone], fun hnil => ?_,
    fun intf rest hcons => ?_⟩
  · simp [resolve, hdns, hlook, niIndexOf, ipTypeOf, hnone, hnil]
  · have hguard : ¬ ((ins.NetworkInterfaces.length : Int) ≤ (0 : Int)) := by
      rw [hcons]
      simp only [List.length_cons]
      push_cast
      omega
    have hidx : netIdx ins.NetworkInterfaces 0 = some intf := by
      rw [hcons]; simp [netIdx]
    simp [resolve, hdns, hlook, niIndexOf, ipTypeOf, hnone, hguard, hidx]

/-- C8 witness: with the default configuration, networkIP `10.0.0.5` at
interface 0 resolves to `10.0.0.5`. -/
theorem default_private_resolution_witness :
    resolve ⟨pbDefault, none⟩ stFull "vm-full" 0 =
      ResolveResult.ok (some (ipv4 10 0 0 5)) := by
  have h := (default_private_resolution ⟨pbDefault, none⟩ stFull "vm-full" 0
    vmFull (by decide) (by decide) (by decide)).2.2.2 intfPriv [] (by decide)
  rw [h]
  decide

/-- C9: a configured negative interface index is not caught by the
`len(...) <= niIndex` guard; `Resolve` reaches the slice indexing with the
negative index (a runtime panic in Go), and does not return the
no-interface-at-index error. -/
theorem negative_index_out_of_range (i : instances) (st : instancesProvider)
    (name : String) (ipVer : Int) (ni : Instances_NetworkInterface)
    (ins : ComputeInstance)
    (hdns : i.pb.useDnsToResolve = false)
    (hni : i.pb.networkInterface = some ni)
    (hneg : ni.index < 0)
    (hlook : mapLookup st.cache name = some ins) :
    resolve i st name ipVer = ResolveResult.indexOutOfRange ni.index ∧
    ∀ m idx, resolve i st name ipVer ≠
      ResolveResult.err (ResolveError.noInterfaceAtIndex m idx) := by
  have hguard : ¬ ((ins.NetworkInterfaces.length : Int) ≤ ni.index) := by
    have h0 : (0 : Int) ≤ (ins.NetworkInterfaces.length : Int) := Int.ofNat_nonneg _
    omega
  have h1 : resolve i st name ipVer = ResolveResult.indexOutOfRange ni.index := by
    simp [resolve, hdns, hlook, niIndexOf, hni, hguard, netIdx, hneg]
  exact ⟨h1, fun m idx => by simp [h1]⟩

/-- C9 witness: index -1 on a cached record reaches the out-of-bounds
indexing rather than the no-interface error. -/
theorem negative_index_out_of_range_witness :
    resolve ⟨pbNeg, none⟩ stFull "vm-full" 0 = ResolveResult.indexOutOfRange (-1) ∧
    resolve ⟨pbNeg, none⟩ stFull "vm-full" 0 ≠
      ResolveResult.err (ResolveError.noInterfaceAtIndex "vm-full" (-1)) := by
  have h := negative_index_out_of_range ⟨pbNeg, none⟩ stFull "vm-full" 0
    ⟨-1, IPType.PRIVATE⟩ vmFull (by decide) (by decide) (by decide) (by decide)
  exact ⟨h.1, h.2 "vm-full" (-1)⟩

/-- C10: when the selected interface's private address (PRIVATE mode) or
first NAT address (PUBLIC mode) does not parse as an IP literal, `Resolve`
returns a nil IP together with a nil error, not a resolution error. -/
theorem unparseable_ip_nil_result (i : instances) (st : instancesProvider)
    (name : String) (ipVer : Int) (ins : ComputeInstance)
    (intf : NetworkInterface)
    (hdns : i.pb.useDnsToResolve = false)
    (hlook : mapLookup st.cache name = some ins)
    (hintf : netIdx ins.NetworkInterfaces (niIndexOf i.pb) = some intf) :
    (ipTypeOf i.pb = IPType.PRIVATE → parseIP intf.NetworkIP = none →
        resolve i st name ipVer = ResolveResult.ok none) ∧
    (∀ ac rest, ipTypeOf i.pb = IPType.PUBLIC → intf.AccessConfigs = ac :: rest →
        parseIP ac.NatIP = none →
        resolve i st name ipVer = ResolveResult.ok none) := by
  have hguard := netIdx_guard _ _ _ hintf
  refine ⟨fun htyp hp => ?_, fun ac rest htyp hac hp => ?_⟩ <;>
    simp_all [resolve, hdns, hlook, hguard, hintf, htyp]

/-- C10 witness: the private address string `not-an-ip` yields a nil IP
and nil error. -/
theorem unparseable_ip_nil_result_witness :
    resolve ⟨pbDefault, none⟩ stBadIP "vm-bad" 0 = ResolveResult.ok none :=
  (unparseable_ip_nil_result ⟨pbDefault, none⟩ stBadIP "vm-bad" 0 vmBadIP
    ⟨"not-an-ip", [], []⟩ (by decide) (by decide) (by decide)).1
    (by decide) (by decide)

end GceInstances
